import Mathlib

/-!
Verification development for the deterministic power-metrics core of the
`gemini-power-lab` repository (`supabase/functions/analyze-power-data/index.ts`).

The numeric primitives are embedded over an arbitrary linear ordered field `K`
(instantiated at `ℚ` for concrete evaluation and at `ℝ` inside
`computeBaselineMetrics`); JavaScript's IEEE floats are modelled as exact
numbers, with NaN represented explicitly (`Option` results, or the `JR` type
where NaN/±∞ flow through comparisons).  JSON-ish values handled by the merge
step are modelled by the inductive type `JVal`.
-/

namespace PowerLab

/-- Arithmetic mean: `arr.reduce((s, x) => s + x, 0) / arr.length`. -/
def mean {K : Type} [LinearOrderedField K] (l : List K) : K :=
  l.sum / l.length

/-- Sum of squares: `arr.reduce((s, x) => s + x * x, 0)`. -/
def sumSq {K : Type} [LinearOrderedField K] (l : List K) : K :=
  (l.map (fun x => x * x)).sum

/-- Source `demean`: `arr.map(x => x - mean(arr))`. -/
def demean {K : Type} [LinearOrderedField K] (l : List K) : List K :=
  l.map (fun x => x - mean l)

/-- Source `peak`: `arr.reduce((m, x) => Math.max(m, Math.abs(x)), 0)`. -/
def peak {K : Type} [LinearOrderedField K] (l : List K) : K :=
  l.foldl (fun m x => max m |x|) 0

/-- Source `rms`: `Math.sqrt(arr.reduce((s, x) => s + x * x, 0) / arr.length)`. -/
noncomputable def rms (l : List ℝ) : ℝ :=
  Real.sqrt (sumSq l / l.length)

/-- The indices pushed by the zero-crossing scan in `freqFromZeroCross`:
the loop `for (i = 1; i < x.length; i++) if (x[i-1] <= 0 && x[i] > 0)`. -/
def crossings {K : Type} [LinearOrderedField K] (x : List K) : List ℕ :=
  (List.range' 1 (x.length - 1)).filter
    (fun i => decide (x.getD (i - 1) 0 ≤ 0) && decide (0 < x.getD i 0))

/-- The deltas `crossings[i] - crossings[i-1]` between consecutive crossings. -/
def periodsOf {K : Type} [LinearOrderedField K] (cs : List ℕ) : List K :=
  (cs.tail.zip cs).map (fun p => (p.1 : K) - (p.2 : K))

/-- Source `freqFromZeroCross`: demean, collect positive-going zero crossings, and
return `fs / avgPeriod`; the JavaScript `NaN` result (fewer than 2 crossings)
is modelled as `none`. -/
def freqFromZeroCross {K : Type} [LinearOrderedField K] (fs : K) (arr : List K) :
    Option K :=
  let x := demean arr
  let cs := crossings x
  if cs.length < 2 then none
  else
    let periods : List K := periodsOf cs
    let avgPeriod := periods.sum / periods.length
    some (fs / avgPeriod)

/-- Source `samplesPerPeriod = isFinite(f0) && f0 > 0 ? fs / f0 : fs / 50`; the model
carries no infinities, so `isFinite` holds of every `some` value. -/
def samplesPerPeriodOf {K : Type} [LinearOrderedField K] (fs : K) (f0 : Option K) : K :=
  match f0 with
  | some f => if 0 < f then fs / f else fs / 50
  | none => fs / 50

/-- The fundamental used by `thdPercent`: `isFinite(f0) && f0 > 0 ? f0 : 50`. -/
def thdFundamental {K : Type} [LinearOrderedField K] (f0 : Option K) : K :=
  match f0 with
  | some f => if 0 < f then f else 50
  | none => 50

/-- Source `lagToDeg`: `(lag / samplesPerPeriod) * 360`. -/
def lagToDeg {K : Type} [LinearOrderedField K] (spp : K) (lag : ℤ) : K :=
  ((lag : K) / spp) * 360

/-- JavaScript truncation toward zero (as used by the float `%` operator). -/
def jsTrunc {K : Type} [LinearOrderedField K] [FloorRing K] (a : K) : ℤ :=
  if 0 ≤ a then ⌊a⌋ else ⌈a⌉

/-- JavaScript remainder `a % b = a - b * trunc(a / b)` (sign of the dividend). -/
def jsMod {K : Type} [LinearOrderedField K] [FloorRing K] (a b : K) : K :=
  a - b * (jsTrunc (a / b) : K)

/-- Source `normDeg`: `((deg + 180) % 360 + 360) % 360 - 180`. -/
def normDeg {K : Type} [LinearOrderedField K] [FloorRing K] (deg : K) : K :=
  jsMod (jsMod (deg + 180) 360 + 360) 360 - 180

/-- JavaScript `Math.round` (round half toward positive infinity). -/
def jsRound {K : Type} [LinearOrderedField K] [FloorRing K] (a : K) : ℤ :=
  ⌊a + 1 / 2⌋

/-- Result domain of the normalized correlation coefficient `sum / denom`:
JavaScript float division yields NaN for `0/0` and signed infinities for
`x/0`, and `>` treats NaN as incomparable.  Finite values stay exact reals. -/
inductive JR where
  | nan
  | ninf
  | pinf
  | fin (r : ℝ)

/-- JavaScript float division `a / b` landing in `JR`. -/
noncomputable def jsDiv (a b : ℝ) : JR :=
  if b = 0 then (if a = 0 then .nan else if 0 < a then .pinf else .ninf)
  else .fin (a / b)

/-- JavaScript `x > y` on `JR` values (false whenever either side is NaN). -/
noncomputable def jsGt : JR → JR → Bool
  | .nan, _ => false
  | _, .nan => false
  | .pinf, .pinf => false
  | .pinf, _ => true
  | .ninf, _ => false
  | .fin _, .pinf => false
  | .fin _, .ninf => true
  | .fin a, .fin b => decide (b < a)

/-- The lags scanned by `for (let lag = -maxLag; lag <= maxLag; lag++)`. -/
def lagRange (maxLag : ℤ) : List ℤ :=
  if maxLag < 0 then []
  else (List.range (2 * maxLag.toNat + 1)).map (fun k => -maxLag + (k : ℤ))

/-- The inner correlation sum at a given lag: `ax[i] * bx[i + lag]` over the
index range where `0 <= i + lag < bx.length`. -/
def crossSum (ax bx : List ℝ) (lag : ℤ) : ℝ :=
  ∑ i in Finset.range ax.length,
    if 0 ≤ (i : ℤ) + lag ∧ (i : ℤ) + lag < bx.length then
      ax.getD i 0 * bx.getD ((i : ℤ) + lag).toNat 0
    else 0

/-- One step of the best-lag search: keep `(bestLag, bestVal)` unless
`corr > bestVal` in JavaScript float comparison. -/
noncomputable def corrStep (ax bx : List ℝ) (denom : ℝ) (best : ℤ × JR) (lag : ℤ) :
    ℤ × JR :=
  let corr := jsDiv (crossSum ax bx lag) denom
  if jsGt corr best.2 then (lag, corr) else best

/-- Source `correlationLag`: demean both channels, normalize by
`sqrt(sum(ax^2) * sum(bx^2))`, scan lags in `[-maxLag, maxLag]`, return the
best lag (initially 0 with best value -Infinity). -/
noncomputable def correlationLag (a b : List ℝ) (maxLag : ℤ) : ℤ :=
  let ax := demean a
  let bx := demean b
  let denom := Real.sqrt (sumSq ax * sumSq bx)
  ((lagRange maxLag).foldl (corrStep ax bx denom) (0, JR.ninf)).1

/-- Goertzel single-bin magnitude: second-order resonator with coefficient
`2 cos(2 pi f / fs)`, magnitude `sqrt(real^2 + imag^2) / N`. -/
noncomputable def goertzel (fs : ℝ) (arr : List ℝ) (targetHz : ℝ) : ℝ :=
  let N := arr.length
  let w := 2 * Real.pi * targetHz / fs
  let coeff := 2 * Real.cos w
  let s := arr.foldl (fun (s : ℝ × ℝ) x =>
    let s0 := x + coeff * s.1 - s.2
    (s0, s.1)) (0, 0)
  let re := s.1 - s.2 * Real.cos w
  let im := s.2 * Real.sin w
  Real.sqrt (re * re + im * im) / N

/-- Source `thdPercent`: demean, take Goertzel magnitude at the fundamental; `null`
(modelled `none`) when the fundamental magnitude is exactly 0, otherwise
`sqrt(sum of squared harmonic magnitudes 2..10) / max(fund, 1e-9) * 100`. -/
noncomputable def thdPercent (fs : ℝ) (f0 : Option ℝ) (arr : List ℝ) : Option ℝ :=
  let x := demean arr
  let f := thdFundamental f0
  let fund := goertzel fs x f
  if fund = 0 then none
  else
    let harmSum := ∑ k in Finset.Icc (2 : ℕ) 10,
      (goertzel fs x (f * (k : ℝ))) * (goertzel fs x (f * (k : ℝ)))
    some (Real.sqrt harmSum / max fund (1 / 1000000000) * 100)

/-- Source `unbalance(a, b, c)`: max deviation from the three-way average, as a
percentage of that average, with 0 when the average is exactly 0. -/
def unbalance {K : Type} [LinearOrderedField K] (a b c : K) : K :=
  let avg := (a + b + c) / 3
  if avg = 0 then 0
  else max (max |a - avg| |b - avg|) |c - avg| / avg * 100

/-- Per-phase active power: `avg(voltage.map((v, i) => v * current[i])) / 1000`
(the element-wise product is a `zipWith`; the data-model invariant makes the
two lists equal-length, which is where the JavaScript indexing is total). -/
noncomputable def activePower (v i : List ℝ) : ℝ :=
  mean (List.zipWith (fun a b => a * b) v i) / 1000

/-- Per-phase apparent power: `rms(voltage) * rms(current) / 1000`. -/
noncomputable def apparentPower (v i : List ℝ) : ℝ :=
  rms v * rms i / 1000

/-- Per-phase reactive power: `sqrt(max(0, S*S - P*P))`. -/
noncomputable def reactivePower (v i : List ℝ) : ℝ :=
  Real.sqrt (max 0 (apparentPower v i * apparentPower v i -
    activePower v i * activePower v i))

/-- The `PowerData` input shape (six channels plus sampling rate). -/
structure PowerData where
  voltage_L1 : List ℝ
  voltage_L2 : List ℝ
  voltage_L3 : List ℝ
  current_L1 : List ℝ
  current_L2 : List ℝ
  current_L3 : List ℝ
  sampling_rate_hz : ℝ

/-- The WaveformBatch data-model invariant: six equal-length sequences of
length at least 2 and a positive sampling rate (samples are finite reals by
construction of the model). -/
def batchInvariant (d : PowerData) : Prop :=
  2 ≤ d.voltage_L1.length ∧
  d.voltage_L2.length = d.voltage_L1.length ∧
  d.voltage_L3.length = d.voltage_L1.length ∧
  d.current_L1.length = d.voltage_L1.length ∧
  d.current_L2.length = d.voltage_L1.length ∧
  d.current_L3.length = d.voltage_L1.length ∧
  0 < d.sampling_rate_hz

structure Triple where
  L1 : ℝ
  L2 : ℝ
  L3 : ℝ

structure LineToLine where
  L12 : ℝ
  L23 : ℝ
  L31 : ℝ

structure RmsValues where
  voltage : Triple
  current : Triple
  line_to_line_voltage : LineToLine

structure PeakValues where
  voltage_L1 : ℝ
  voltage_L2 : ℝ
  voltage_L3 : ℝ
  current_L1 : ℝ
  current_L2 : ℝ
  current_L3 : ℝ

structure PhaseAngles where
  voltage_L1_vs_current_L1 : ℝ
  voltage_L2_vs_current_L2 : ℝ
  voltage_L3_vs_current_L3 : ℝ
  voltage_L1_vs_voltage_L2 : ℝ
  voltage_L2_vs_voltage_L3 : ℝ
  voltage_L3_vs_voltage_L1 : ℝ

structure RealQuad where
  L1 : ℝ
  L2 : ℝ
  L3 : ℝ
  total : ℝ

/-- Reactive power: the per-phase leaves are `number | null`, the total is a
plain number (`null` contributes 0 via `(v || 0)`). -/
structure ReactiveQuad where
  L1 : Option ℝ
  L2 : Option ℝ
  L3 : Option ℝ
  total : ℝ

/-- Power factor: every leaf is `number | null`. -/
structure PFQuad where
  L1 : Option ℝ
  L2 : Option ℝ
  L3 : Option ℝ
  total : Option ℝ

structure OptTriple where
  L1 : Option ℝ
  L2 : Option ℝ
  L3 : Option ℝ

structure PowerAnalysis where
  active_power : RealQuad
  reactive_power : ReactiveQuad
  apparent_power : RealQuad
  power_factor : PFQuad

structure QualityMetrics where
  voltage_unbalance_percent : ℝ
  current_unbalance_percent : ℝ
  thd_voltage : OptTriple
  thd_current : OptTriple

/-- The baseline metrics object; `frequency_hz = none` models the NaN result
of a failed zero-crossing estimate (a number, not `null`, in JavaScript). -/
structure BaselineMetrics where
  rms_values : RmsValues
  peak_values : PeakValues
  frequency_hz : Option ℝ
  phase_angles_degrees : PhaseAngles
  power_analysis : PowerAnalysis
  quality_metrics : QualityMetrics
  phase_sequence : String

/-- Source `computeBaselineMetrics`, line for line from the source. -/
noncomputable def computeBaselineMetrics (d : PowerData) : BaselineMetrics :=
  let fs := if d.sampling_rate_hz = 0 then 1000 else d.sampling_rate_hz
  let f0 := freqFromZeroCross fs d.voltage_L1
  let spp := samplesPerPeriodOf fs f0
  let VrmsL1 := rms d.voltage_L1
  let VrmsL2 := rms d.voltage_L2
  let VrmsL3 := rms d.voltage_L3
  let IrmsL1 := rms d.current_L1
  let IrmsL2 := rms d.current_L2
  let IrmsL3 := rms d.current_L3
  let v12 := List.zipWith (fun a b => a - b) d.voltage_L1 d.voltage_L2
  let v23 := List.zipWith (fun a b => a - b) d.voltage_L2 d.voltage_L3
  let v31 := List.zipWith (fun a b => a - b) d.voltage_L3 d.voltage_L1
  let maxLag := jsRound spp
  let phi_v12 := normDeg (lagToDeg spp (correlationLag d.voltage_L1 d.voltage_L2 maxLag))
  let phi_v23 := normDeg (lagToDeg spp (correlationLag d.voltage_L2 d.voltage_L3 maxLag))
  let phi_v31 := normDeg (lagToDeg spp (correlationLag d.voltage_L3 d.voltage_L1 maxLag))
  let phi_L1 := normDeg (lagToDeg spp (correlationLag d.voltage_L1 d.current_L1 maxLag))
  let phi_L2 := normDeg (lagToDeg spp (correlationLag d.voltage_L2 d.current_L2 maxLag))
  let phi_L3 := normDeg (lagToDeg spp (correlationLag d.voltage_L3 d.current_L3 maxLag))
  let P1 := activePower d.voltage_L1 d.current_L1
  let P2 := activePower d.voltage_L2 d.current_L2
  let P3 := activePower d.voltage_L3 d.current_L3
  let S1 := apparentPower d.voltage_L1 d.current_L1
  let S2 := apparentPower d.voltage_L2 d.current_L2
  let S3 := apparentPower d.voltage_L3 d.current_L3
  let PF1 := if 0 < S1 then some (min 1 (max (-1) (P1 / S1))) else none
  let PF2 := if 0 < S2 then some (min 1 (max (-1) (P2 / S2))) else none
  let PF3 := if 0 < S3 then some (min 1 (max (-1) (P3 / S3))) else none
  let Q1 := match PF1 with
    | some _ => some (reactivePower d.voltage_L1 d.current_L1)
    | none => none
  let Q2 := match PF2 with
    | some _ => some (reactivePower d.voltage_L2 d.current_L2)
    | none => none
  let Q3 := match PF3 with
    | some _ => some (reactivePower d.voltage_L3 d.current_L3)
    | none => none
  let totalP := P1 + P2 + P3
  let totalS := S1 + S2 + S3
  let totalQ := Q1.getD 0 + Q2.getD 0 + Q3.getD 0
  let totalPF := if 0 < totalS then some (min 1 (max 0 (totalP / totalS))) else none
  let thdV1 := thdPercent fs f0 d.voltage_L1
  let thdV2 := thdPercent fs f0 d.voltage_L2
  let thdV3 := thdPercent fs f0 d.voltage_L3
  let thdI1 := thdPercent fs f0 d.current_L1
  let thdI2 := thdPercent fs f0 d.current_L2
  let thdI3 := thdPercent fs f0 d.current_L3
  let positive := decide (-180 < phi_v12) && decide (phi_v12 < 0) &&
    decide (-180 < phi_v23) && decide (phi_v23 < 0)
  { rms_values :=
      { voltage := ⟨VrmsL1, VrmsL2, VrmsL3⟩
        current := ⟨IrmsL1, IrmsL2, IrmsL3⟩
        line_to_line_voltage := ⟨rms v12, rms v23, rms v31⟩ }
    peak_values :=
      { voltage_L1 := peak d.voltage_L1
        voltage_L2 := peak d.voltage_L2
        voltage_L3 := peak d.voltage_L3
        current_L1 := peak d.current_L1
        current_L2 := peak d.current_L2
        current_L3 := peak d.current_L3 }
    frequency_hz := f0
    phase_angles_degrees :=
      { voltage_L1_vs_current_L1 := phi_L1
        voltage_L2_vs_current_L2 := phi_L2
        voltage_L3_vs_current_L3 := phi_L3
        voltage_L1_vs_voltage_L2 := phi_v12
        voltage_L2_vs_voltage_L3 := phi_v23
        voltage_L3_vs_voltage_L1 := phi_v31 }
    power_analysis :=
      { active_power := ⟨P1, P2, P3, totalP⟩
        reactive_power := ⟨Q1, Q2, Q3, totalQ⟩
        apparent_power := ⟨S1, S2, S3, totalS⟩
        power_factor := ⟨PF1, PF2, PF3, totalPF⟩ }
    quality_metrics :=
      { voltage_unbalance_percent := unbalance VrmsL1 VrmsL2 VrmsL3
        current_unbalance_percent := unbalance IrmsL1 IrmsL2 IrmsL3
        thd_voltage := ⟨thdV1, thdV2, thdV3⟩
        thd_current := ⟨thdI1, thdI2, thdI3⟩ }
    phase_sequence := if positive then "positive" else "unknown" }

/-- JSON-ish JavaScript values flowing through `mergeAnalysis`.  `undefVal` is a
property slot holding `undefined` (also the result of reading an absent
property); `nan` is the float NaN, a number distinct from `null`. -/
inductive JVal where
  | null
  | undefVal
  | nan
  | num (r : ℝ)
  | str (s : String)
  | obj (fields : List (String × JVal))

/-- Own-property read on a field list (`undefined` when the key is absent). -/
def getF (fs : List (String × JVal)) (k : String) : JVal :=
  match fs.find? (fun p => p.1 == k) with
  | some p => p.2
  | none => .undefVal

/-- Property write: replace in place if present (JavaScript keeps insertion
order), append otherwise. -/
def setF : List (String × JVal) → String → JVal → List (String × JVal)
  | [], k, v => [(k, v)]
  | p :: rest, k, v => if p.1 == k then (k, v) :: rest else p :: setF rest k v

/-- Unchecked property read `v[k]` (used only where the source has already
guarded `v` against null/undefined; primitives yield `undefined`). -/
def JVal.get : JVal → String → JVal
  | .obj fs, k => getF fs k
  | _, _ => .undefVal

/-- Checked property read: JavaScript throws a TypeError when reading a
property of `null` or `undefined`. -/
def JVal.getE : JVal → String → Except String JVal
  | .null, k => .error ("TypeError: cannot read properties of null, key " ++ k)
  | .undefVal, k => .error ("TypeError: cannot read properties of undefined, key " ++ k)
  | v, k => .ok (v.get k)

/-- Optional-chained read `v?.[k]`: `undefined` when `v` is nullish. -/
def optGet (v : JVal) (k : String) : JVal :=
  match v with
  | .null => .undefVal
  | .undefVal => .undefVal
  | w => w.get k

/-- JavaScript nullish test (for `??` and `?.`). -/
def nullish : JVal → Bool
  | .null => true
  | .undefVal => true
  | _ => false

/-- Nullish coalescing `a ?? b`. -/
def coal (a b : JVal) : JVal :=
  if nullish a then b else a

/-- The `setIfMissingOrNull` guard:
`current === undefined || current === null || (typeof current === 'number' && isNaN(current))`. -/
def isMissing : JVal → Bool
  | .undefVal => true
  | .null => true
  | .nan => true
  | _ => false

/-- JavaScript truthiness (`if (v)`). -/
noncomputable def truthy : JVal → Bool
  | .null => false
  | .undefVal => false
  | .nan => false
  | .num r => decide (r ≠ 0)
  | .str s => decide (s ≠ "")
  | .obj _ => true

mutual

/-- Deep copy `JSON.parse(JSON.stringify(v))`: NaN serializes to `null`; properties whose
value is `undefined` are dropped. -/
def jsonRT : JVal → JVal
  | .nan => .null
  | .obj fs => .obj (jsonRTF fs)
  | v => v

def jsonRTF : List (String × JVal) → List (String × JVal)
  | [] => []
  | (k, v) :: rest =>
    match v with
    | .undefVal => jsonRTF rest
    | v => (k, jsonRT v) :: jsonRTF rest

end

/-- Fold the source fields over the target (`Object.assign` body). -/
def assignF (fs : List (String × JVal)) : List (String × JVal) → List (String × JVal)
  | [] => fs
  | (k, v) :: rest => assignF (setF fs k v) rest

/-- JavaScript `Object.assign(out, ai)`: copies own enumerable properties of an object
source; nullish and (in this model) primitive sources contribute nothing. -/
def jsAssign (out ai : JVal) : JVal :=
  match out, ai with
  | .obj fs, .obj gs => .obj (assignF fs gs)
  | v, _ => v

/-- Source `setIfMissingOrNull(path, val)` acting on `out`, returned functionally.
Intermediate steps run `node[k] = node[k] ?? {}; node = node[k]`; property
reads on nullish nodes throw; property writes on primitives silently no-op
(after which the re-read yields `undefined` and the next access throws). -/
def setIfMissingOrNullAux : JVal → List String → JVal → Except String JVal
  | out, [], _ => .ok out
  | out, [last], val =>
    match out with
    | .null => .error ("TypeError: cannot read properties of null, key " ++ last)
    | .undefVal => .error ("TypeError: cannot read properties of undefined, key " ++ last)
    | .obj fs =>
      let cur := getF fs last
      .ok (if isMissing cur then .obj (setF fs last val) else .obj fs)
    | v => .ok v
  | out, k :: rest, val =>
    match out with
    | .null => .error ("TypeError: cannot read properties of null, key " ++ k)
    | .undefVal => .error ("TypeError: cannot read properties of undefined, key " ++ k)
    | .obj fs =>
      let child := getF fs k
      let child1 := if nullish child then .obj [] else child
      (setIfMissingOrNullAux child1 rest val).map (fun c => .obj (setF fs k c))
    | _ => setIfMissingOrNullAux .undefVal rest val

/-- Direct top-level property assignment (`out.analysis_notes = ...`). -/
def setTop (out : JVal) (k : String) (v : JVal) : JVal :=
  match out with
  | .obj fs => .obj (setF fs k v)
  | w => w

/-- A `number | null` leaf as a JSON value. -/
def jnum : Option ℝ → JVal
  | none => .null
  | some r => .num r

/-- The `frequency_hz` leaf: the failed-estimate sentinel is NaN, a number. -/
def jfreq : Option ℝ → JVal
  | none => .nan
  | some r => .num r

/-- The baseline object as the JSON value built by `computeBaselineMetrics`
(keys in source insertion order, `phase_sequence` assigned last). -/
def toJVal (m : BaselineMetrics) : JVal :=
  .obj
    [("rms_values", .obj
        [("voltage", .obj
            [("L1", .num m.rms_values.voltage.L1),
             ("L2", .num m.rms_values.voltage.L2),
             ("L3", .num m.rms_values.voltage.L3),
             ("units", .str "V")]),
         ("current", .obj
            [("L1", .num m.rms_values.current.L1),
             ("L2", .num m.rms_values.current.L2),
             ("L3", .num m.rms_values.current.L3),
             ("units", .str "A")]),
         ("line_to_line_voltage", .obj
            [("L12", .num m.rms_values.line_to_line_voltage.L12),
             ("L23", .num m.rms_values.line_to_line_voltage.L23),
             ("L31", .num m.rms_values.line_to_line_voltage.L31),
             ("units", .str "V")])]),
     ("peak_values", .obj
        [("voltage_L1", .num m.peak_values.voltage_L1),
         ("voltage_L2", .num m.peak_values.voltage_L2),
         ("voltage_L3", .num m.peak_values.voltage_L3),
         ("current_L1", .num m.peak_values.current_L1),
         ("current_L2", .num m.peak_values.current_L2),
         ("current_L3", .num m.peak_values.current_L3)]),
     ("frequency_hz", jfreq m.frequency_hz),
     ("phase_angles_degrees", .obj
        [("voltage_L1_vs_current_L1", .num m.phase_angles_degrees.voltage_L1_vs_current_L1),
         ("voltage_L2_vs_current_L2", .num m.phase_angles_degrees.voltage_L2_vs_current_L2),
         ("voltage_L3_vs_current_L3", .num m.phase_angles_degrees.voltage_L3_vs_current_L3),
         ("voltage_L1_vs_voltage_L2", .num m.phase_angles_degrees.voltage_L1_vs_voltage_L2),
         ("voltage_L2_vs_voltage_L3", .num m.phase_angles_degrees.voltage_L2_vs_voltage_L3),
         ("voltage_L3_vs_voltage_L1", .num m.phase_angles_degrees.voltage_L3_vs_voltage_L1)]),
     ("power_analysis", .obj
        [("active_power", .obj
            [("L1", .num m.power_analysis.active_power.L1),
             ("L2", .num m.power_analysis.active_power.L2),
             ("L3", .num m.power_analysis.active_power.L3),
             ("total", .num m.power_analysis.active_power.total),
             ("units", .str "kW")]),
         ("reactive_power", .obj
            [("L1", jnum m.power_analysis.reactive_power.L1),
             ("L2", jnum m.power_analysis.reactive_power.L2),
             ("L3", jnum m.power_analysis.reactive_power.L3),
             ("total", .num m.power_analysis.reactive_power.total),
             ("units", .str "kVAR")]),
         ("apparent_power", .obj
            [("L1", .num m.power_analysis.apparent_power.L1),
             ("L2", .num m.power_analysis.apparent_power.L2),
             ("L3", .num m.power_analysis.apparent_power.L3),
             ("total", .num m.power_analysis.apparent_power.total),
             ("units", .str "kVA")]),
         ("power_factor", .obj
            [("L1", jnum m.power_analysis.power_factor.L1),
             ("L2", jnum m.power_analysis.power_factor.L2),
             ("L3", jnum m.power_analysis.power_factor.L3),
             ("total", jnum m.power_analysis.power_factor.total)])]),
     ("quality_metrics", .obj
        [("voltage_unbalance_percent", .num m.quality_metrics.voltage_unbalance_percent),
         ("current_unbalance_percent", .num m.quality_metrics.current_unbalance_percent),
         ("thd_voltage", .obj
            [("L1", jnum m.quality_metrics.thd_voltage.L1),
             ("L2", jnum m.quality_metrics.thd_voltage.L2),
             ("L3", jnum m.quality_metrics.thd_voltage.L3),
             ("units", .str "%")]),
         ("thd_current", .obj
            [("L1", jnum m.quality_metrics.thd_current.L1),
             ("L2", jnum m.quality_metrics.thd_current.L2),
             ("L3", jnum m.quality_metrics.thd_current.L3),
             ("units", .str "%")])]),
     ("phase_sequence", .str m.phase_sequence)]

/-- Body of the `for (const f of fields)` loop over the four power groups. -/
def mergePowerField (pa out : JVal) (f : String) : Except String JVal := do
  let out ← setIfMissingOrNullAux out ["power_analysis", "active_power", f]
    (optGet (pa.get "active_power") f)
  let out ← setIfMissingOrNullAux out ["power_analysis", "reactive_power", f]
    (optGet (pa.get "reactive_power") f)
  let out ← setIfMissingOrNullAux out ["power_analysis", "apparent_power", f]
    (optGet (pa.get "apparent_power") f)
  setIfMissingOrNullAux out ["power_analysis", "power_factor", f]
    (optGet (pa.get "power_factor") f)

/-- Source `mergeAnalysis(ai, base)`, line for line from the source: deep-copy the
baseline via a JSON round trip, shallow `Object.assign`, then the sequence of
`setIfMissingOrNull` calls (each passing the *external* leaf as the value). -/
noncomputable def mergeAnalysis (ai base : JVal) : Except String JVal := do
  let out := jsonRT base
  let out := jsAssign out ai
  let out ←
    if truthy (optGet (optGet ai "rms_values") "voltage") then do
      let v := (ai.get "rms_values").get "voltage"
      let out ← setIfMissingOrNullAux out ["rms_values", "voltage", "L1"] (v.get "L1")
      let out ← setIfMissingOrNullAux out ["rms_values", "voltage", "L2"] (v.get "L2")
      setIfMissingOrNullAux out ["rms_values", "voltage", "L3"] (v.get "L3")
    else pure out
  let out ←
    if truthy (optGet (optGet ai "rms_values") "current") then do
      let c := (ai.get "rms_values").get "current"
      let out ← setIfMissingOrNullAux out ["rms_values", "current", "L1"] (c.get "L1")
      let out ← setIfMissingOrNullAux out ["rms_values", "current", "L2"] (c.get "L2")
      setIfMissingOrNullAux out ["rms_values", "current", "L3"] (c.get "L3")
    else pure out
  let out ←
    if truthy (optGet (optGet ai "rms_values") "line_to_line_voltage") then do
      let l := (ai.get "rms_values").get "line_to_line_voltage"
      let out ← setIfMissingOrNullAux out ["rms_values", "line_to_line_voltage", "L12"] (l.get "L12")
      let out ← setIfMissingOrNullAux out ["rms_values", "line_to_line_voltage", "L23"] (l.get "L23")
      setIfMissingOrNullAux out ["rms_values", "line_to_line_voltage", "L31"] (l.get "L31")
    else pure out
  let fq ← ai.getE "frequency_hz"
  let out ← setIfMissingOrNullAux out ["frequency_hz"] fq
  let ps ← ai.getE "phase_sequence"
  let out ← setIfMissingOrNullAux out ["phase_sequence"] ps
  let out ←
    if truthy (optGet ai "phase_angles_degrees") then do
      let p := ai.get "phase_angles_degrees"
      let out ← setIfMissingOrNullAux out ["phase_angles_degrees", "voltage_L1_vs_current_L1"]
        (coal (p.get "voltage_L1_vs_current_L1")
          (coal (optGet (p.get "voltage") "L1_L1") (optGet (p.get "voltage_current") "L1")))
      let out ← setIfMissingOrNullAux out ["phase_angles_degrees", "voltage_L2_vs_current_L2"]
        (coal (p.get "voltage_L2_vs_current_L2")
          (coal (optGet (p.get "voltage") "L2_L2") (optGet (p.get "voltage_current") "L2")))
      let out ← setIfMissingOrNullAux out ["phase_angles_degrees", "voltage_L3_vs_current_L3"]
        (coal (p.get "voltage_L3_vs_current_L3")
          (coal (optGet (p.get "voltage") "L3_L3") (optGet (p.get "voltage_current") "L3")))
      let out ← setIfMissingOrNullAux out ["phase_angles_degrees", "voltage_L1_vs_voltage_L2"]
        (coal (p.get "voltage_L1_vs_voltage_L2") (optGet (p.get "voltage") "L1_L2"))
      let out ← setIfMissingOrNullAux out ["phase_angles_degrees", "voltage_L2_vs_voltage_L3"]
        (coal (p.get "voltage_L2_vs_voltage_L3") (optGet (p.get "voltage") "L2_L3"))
      setIfMissingOrNullAux out ["phase_angles_degrees", "voltage_L3_vs_voltage_L1"]
        (coal (p.get "voltage_L3_vs_voltage_L1") (optGet (p.get "voltage") "L3_L1"))
    else pure out
  let out ←
    if truthy (optGet ai "power_analysis") then do
      let pa := ai.get "power_analysis"
      let out ← mergePowerField pa out "L1"
      let out ← mergePowerField pa out "L2"
      let out ← mergePowerField pa out "L3"
      mergePowerField pa out "total"
    else pure out
  let out ←
    if truthy (optGet ai "quality_metrics") then do
      let q := ai.get "quality_metrics"
      let out ← setIfMissingOrNullAux out ["quality_metrics", "voltage_unbalance_percent"]
        (q.get "voltage_unbalance_percent")
      let out ← setIfMissingOrNullAux out ["quality_metrics", "current_unbalance_percent"]
        (q.get "current_unbalance_percent")
      let out ←
        if truthy (q.get "thd_voltage") then do
          let tv := q.get "thd_voltage"
          let out ← setIfMissingOrNullAux out ["quality_metrics", "thd_voltage", "L1"] (tv.get "L1")
          let out ← setIfMissingOrNullAux out ["quality_metrics", "thd_voltage", "L2"] (tv.get "L2")
          setIfMissingOrNullAux out ["quality_metrics", "thd_voltage", "L3"] (tv.get "L3")
        else pure out
      if truthy (q.get "thd_current") then do
        let ti := q.get "thd_current"
        let out ← setIfMissingOrNullAux out ["quality_metrics", "thd_current", "L1"] (ti.get "L1")
        let out ← setIfMissingOrNullAux out ["quality_metrics", "thd_current", "L2"] (ti.get "L2")
        setIfMissingOrNullAux out ["quality_metrics", "thd_current", "L3"] (ti.get "L3")
      else pure out
    else pure out
  let out :=
    if truthy (optGet ai "analysis_notes") then
      setTop out "analysis_notes" (ai.get "analysis_notes")
    else out
  return out

/-! ### Helper lemmas about the JavaScript remainder -/

theorem jsMod_nonneg_of_nonneg {K : Type} [LinearOrderedField K] [FloorRing K]
    {a b : K} (hb : 0 < b) (ha : 0 ≤ a) : 0 ≤ jsMod a b := by
  have hq : (0 : K) ≤ a / b := div_nonneg ha hb.le
  rw [jsMod, jsTrunc, if_pos hq, sub_nonneg]
  calc b * (⌊a / b⌋ : K) ≤ b * (a / b) :=
        mul_le_mul_of_nonneg_left (Int.floor_le _) hb.le
    _ = a := by field_simp

theorem jsMod_lt_of_nonneg {K : Type} [LinearOrderedField K] [FloorRing K]
    {a b : K} (hb : 0 < b) (ha : 0 ≤ a) : jsMod a b < b := by
  have hq : (0 : K) ≤ a / b := div_nonneg ha hb.le
  rw [jsMod, jsTrunc, if_pos hq, sub_lt_iff_lt_add]
  have h1 : a / b < (⌊a / b⌋ : K) + 1 := Int.lt_floor_add_one _
  have h2 : a = b * (a / b) := by field_simp
  calc a = b * (a / b) := h2
    _ < b * ((⌊a / b⌋ : K) + 1) := by
        exact (mul_lt_mul_left hb).mpr h1
    _ = b + b * (⌊a / b⌋ : K) := by ring

theorem jsMod_nonpos_of_neg {K : Type} [LinearOrderedField K] [FloorRing K]
    {a b : K} (hb : 0 < b) (ha : a < 0) : jsMod a b ≤ 0 := by
  have hq : ¬ (0 : K) ≤ a / b := by
    rw [not_le]
    exact div_neg_of_neg_of_pos ha hb
  rw [jsMod, jsTrunc, if_neg hq, sub_nonpos]
  calc a = b * (a / b) := by field_simp
    _ ≤ b * (⌈a / b⌉ : K) := mul_le_mul_of_nonneg_left (Int.le_ceil _) hb.le

theorem neg_lt_jsMod_of_neg {K : Type} [LinearOrderedField K] [FloorRing K]
    {a b : K} (hb : 0 < b) (ha : a < 0) : -b < jsMod a b := by
  have hq : ¬ (0 : K) ≤ a / b := by
    rw [not_le]
    exact div_neg_of_neg_of_pos ha hb
  rw [jsMod, jsTrunc, if_neg hq, neg_lt, neg_sub]
  have h1 : (⌈a / b⌉ : K) < a / b + 1 := Int.ceil_lt_add_one _
  calc b * (⌈a / b⌉ : K) - a < b * (a / b + 1) - a := by
        have := (mul_lt_mul_left hb).mpr h1
        linarith
    _ = b := by field_simp

theorem jsMod_eq_sub {K : Type} [LinearOrderedField K] [FloorRing K] (a b : K) :
    jsMod a b = a - b * (jsTrunc (a / b) : K) := rfl

/-- C6 (amended): `normDeg` lands in the half-open interval `[-180, 180)`
(not `(-180, 180]`) and is congruent to its argument modulo 360. -/
theorem normDeg_bounds (d : ℝ) :
    -180 ≤ normDeg d ∧ normDeg d < 180 ∧ ∃ k : ℤ, normDeg d = d - 360 * (k : ℝ) := by
  have h360 : (0 : ℝ) < 360 := by norm_num
  have hnd : normDeg d = jsMod (jsMod (d + 180) 360 + 360) 360 - 180 := rfl
  have hr1ub : jsMod (d + 180) 360 < 360 := by
    rcases le_or_lt 0 (d + 180) with ha | ha
    · exact jsMod_lt_of_nonneg h360 ha
    · have := jsMod_nonpos_of_neg h360 ha
      linarith
  have hr1lb : -360 < jsMod (d + 180) 360 := by
    rcases le_or_lt 0 (d + 180) with ha | ha
    · have := jsMod_nonneg_of_nonneg h360 ha
      linarith
    · exact neg_lt_jsMod_of_neg h360 ha
  have h2nn : (0 : ℝ) ≤ jsMod (d + 180) 360 + 360 := by linarith
  have hr2lb : 0 ≤ jsMod (jsMod (d + 180) 360 + 360) 360 :=
    jsMod_nonneg_of_nonneg h360 h2nn
  have hr2ub : jsMod (jsMod (d + 180) 360 + 360) 360 < 360 :=
    jsMod_lt_of_nonneg h360 h2nn
  refine ⟨by rw [hnd]; linarith, by rw [hnd]; linarith, ?_⟩
  refine ⟨jsTrunc ((d + 180) / 360) + jsTrunc ((jsMod (d + 180) 360 + 360) / 360) - 1, ?_⟩
  rw [hnd, jsMod_eq_sub (jsMod (d + 180) 360 + 360) 360, jsMod_eq_sub (d + 180) 360]
  push_cast
  ring

/-- C6 counterexample: at the finite input `d = 180` the code returns exactly
`-180`, which is outside the claimed interval `(-180, 180]`. -/
theorem normDeg_at_180 : normDeg (180 : ℝ) = -180 ∧ ¬ (-180 < normDeg (180 : ℝ)) := by
  have h2 : jsTrunc ((360 : ℝ) / 360) = 1 := by
    rw [show (360 : ℝ) / 360 = 1 by norm_num, jsTrunc,
      if_pos (by norm_num : (0 : ℝ) ≤ 1)]
    exact Int.floor_one
  have hmod : jsMod (360 : ℝ) 360 = 0 := by
    rw [jsMod_eq_sub, h2]
    norm_num
  have h : normDeg (180 : ℝ) = -180 := by
    show jsMod (jsMod ((180 : ℝ) + 180) 360 + 360) 360 - 180 = -180
    rw [show (180 : ℝ) + 180 = 360 by norm_num, hmod,
      show (0 : ℝ) + 360 = 360 by norm_num, hmod]
    norm_num
  exact ⟨h, by rw [h]; norm_num⟩

/-- C7: an index is recorded as a positive-going zero crossing of the demeaned
channel exactly when `x[i-1] <= 0 < x[i]`; with at least two crossings the
estimate is `fs / mean(deltas)`, otherwise NaN (`none`); and a NaN estimate
makes the downstream period default to `fs / 50` and the THD fundamental 50. -/
theorem freqFromZeroCross_spec {K : Type} [LinearOrderedField K] (fs : K) (arr : List K) :
    (∀ i : ℕ, i ∈ crossings (demean arr) ↔
      1 ≤ i ∧ i < (demean arr).length ∧
        (demean arr).getD (i - 1) 0 ≤ 0 ∧ 0 < (demean arr).getD i 0)
    ∧ (2 ≤ (crossings (demean arr)).length →
        freqFromZeroCross fs arr =
          some (fs / mean (periodsOf (crossings (demean arr)))))
    ∧ ((crossings (demean arr)).length < 2 → freqFromZeroCross fs arr = none)
    ∧ (freqFromZeroCross fs arr = none →
        samplesPerPeriodOf fs (freqFromZeroCross fs arr) = fs / 50 ∧
        thdFundamental (freqFromZeroCross fs arr) = 50) := by
  refine ⟨?_, ?_, ?_, ?_⟩
  · intro i
    simp only [crossings, List.mem_filter, List.mem_range'_1, Bool.and_eq_true,
      decide_eq_true_eq]
    constructor
    · rintro ⟨⟨hi1, hi2⟩, h3, h4⟩
      exact ⟨hi1, by omega, h3, h4⟩
    · rintro ⟨hi1, hi2, h3, h4⟩
      exact ⟨⟨hi1, by omega⟩, h3, h4⟩
  · intro h
    simp only [freqFromZeroCross]
    rw [if_neg (by omega : ¬ (crossings (demean arr)).length < 2)]
    rfl
  · intro h
    simp only [freqFromZeroCross]
    rw [if_pos h]
  · intro h
    rw [h]
    exact ⟨rfl, rfl⟩

/-- Witness for C7 at a concrete rational signal with two crossings. -/
theorem freqFromZeroCross_spec_witness :
    2 ≤ (crossings (demean ([-1, 1, -1, 1] : List ℚ))).length ∧
    freqFromZeroCross (1000 : ℚ) [-1, 1, -1, 1] =
      some (1000 / mean (periodsOf (crossings (demean ([-1, 1, -1, 1] : List ℚ))))) := by
  have hc : crossings (demean ([-1, 1, -1, 1] : List ℚ)) = [1, 3] := by
    norm_num [crossings, demean, mean, List.range', List.filter]
  have h : 2 ≤ (crossings (demean ([-1, 1, -1, 1] : List ℚ))).length := by
    rw [hc]
    norm_num
  exact ⟨h, (freqFromZeroCross_spec (1000 : ℚ) [-1, 1, -1, 1]).2.1 h⟩

/-! ### Sums over lists as `Finset.range` sums -/

theorem map_sum_getD {K : Type} [LinearOrderedField K] (g : K → K) :
    ∀ l : List K, (l.map g).sum = ∑ k in Finset.range l.length, g (l.getD k 0)
  | [] => by simp
  | a :: l => by
    simp only [List.map_cons, List.sum_cons, List.length_cons]
    rw [Finset.sum_range_succ']
    simp only [List.getD_cons_succ, List.getD_cons_zero]
    rw [map_sum_getD g l]
    ring

theorem zipWith_mul_sum_getD {K : Type} [LinearOrderedField K] :
    ∀ v w : List K, v.length = w.length →
      (List.zipWith (fun a b => a * b) v w).sum =
        ∑ k in Finset.range v.length, v.getD k 0 * w.getD k 0
  | [], [], _ => by simp
  | [], _ :: _, h => by simp at h
  | _ :: _, [], h => by simp at h
  | a :: v, b :: w, h => by
    simp only [List.zipWith_cons_cons, List.sum_cons, List.length_cons]
    rw [Finset.sum_range_succ']
    simp only [List.getD_cons_succ, List.getD_cons_zero]
    rw [zipWith_mul_sum_getD v w (by simpa using h)]
    ring

theorem sumSq_nonneg {K : Type} [LinearOrderedField K] (l : List K) : 0 ≤ sumSq l := by
  apply List.sum_nonneg
  intro x hx
  simp only [List.mem_map] at hx
  obtain ⟨y, _, rfl⟩ := hx
  exact mul_self_nonneg y

/-- Cauchy-Schwarz for the element-wise product of two equal-length lists. -/
theorem sum_zipWith_mul_sq_le {K : Type} [LinearOrderedField K] (v w : List K)
    (h : v.length = w.length) :
    (List.zipWith (fun a b => a * b) v w).sum ^ 2 ≤ sumSq v * sumSq w := by
  rw [zipWith_mul_sum_getD v w h, sumSq, sumSq, map_sum_getD, map_sum_getD, h]
  have hcs := Finset.sum_mul_sq_le_sq_mul_sq (Finset.range w.length)
    (fun k => v.getD k 0) (fun k => w.getD k 0)
  simpa [pow_two] using hcs

/-- C5: the power identity `apparentPower^2 >= activePower^2`
(Cauchy-Schwarz), so the reactive power is a well-defined non-negative real
whose square is exactly the difference. -/
theorem power_identity (v w : List ℝ) (hlen : v.length = w.length) (hne : v ≠ []) :
    activePower v w * activePower v w ≤ apparentPower v w * apparentPower v w ∧
    0 ≤ reactivePower v w ∧
    reactivePower v w * reactivePower v w =
      apparentPower v w * apparentPower v w - activePower v w * activePower v w := by
  have hn : 0 < v.length := List.length_pos.2 hne
  have hnR : (0 : ℝ) < (v.length : ℝ) := by exact_mod_cast hn
  have hsv : 0 ≤ sumSq v := sumSq_nonneg v
  have hsw : 0 ≤ sumSq w := sumSq_nonneg w
  have hzlen : (List.zipWith (fun a b => a * b) v w).length = v.length := by
    rw [List.length_zipWith, hlen, Nat.min_self]
  have hP : activePower v w =
      (List.zipWith (fun a b => a * b) v w).sum / (v.length : ℝ) / 1000 := by
    rw [activePower, mean, hzlen]
  have hS : apparentPower v w * apparentPower v w =
      sumSq v * sumSq w / ((v.length : ℝ) * (v.length : ℝ) * 1000000) := by
    rw [apparentPower, rms, rms, ← hlen]
    have h1 : 0 ≤ sumSq v / (v.length : ℝ) := div_nonneg hsv hnR.le
    have h2 : 0 ≤ sumSq w / (v.length : ℝ) := div_nonneg hsw hnR.le
    rw [show Real.sqrt (sumSq v / (v.length : ℝ)) * Real.sqrt (sumSq w / (v.length : ℝ)) / 1000 *
        (Real.sqrt (sumSq v / (v.length : ℝ)) * Real.sqrt (sumSq w / (v.length : ℝ)) / 1000) =
        Real.sqrt (sumSq v / (v.length : ℝ)) * Real.sqrt (sumSq v / (v.length : ℝ)) *
          (Real.sqrt (sumSq w / (v.length : ℝ)) * Real.sqrt (sumSq w / (v.length : ℝ))) / 1000000
      by ring]
    rw [Real.mul_self_sqrt h1, Real.mul_self_sqrt h2]
    field_simp
  have hkey := sum_zipWith_mul_sq_le v w hlen
  have hmain : activePower v w * activePower v w ≤
      apparentPower v w * apparentPower v w := by
    rw [hP, hS]
    have e1 : (List.zipWith (fun a b => a * b) v w).sum / (v.length : ℝ) / 1000 *
        ((List.zipWith (fun a b => a * b) v w).sum / (v.length : ℝ) / 1000) =
        (List.zipWith (fun a b => a * b) v w).sum ^ 2 /
          ((v.length : ℝ) * (v.length : ℝ) * 1000000) := by
      field_simp
      ring
    rw [e1]
    exact (div_le_div_iff_of_pos_right (by positivity)).2 hkey
  refine ⟨hmain, Real.sqrt_nonneg _, ?_⟩
  rw [reactivePower, Real.mul_self_sqrt (le_max_left _ _)]
  exact max_eq_right (by linarith)

/-- Witness for C5 at the concrete phase signals `[3, 4]` and `[1, 2]`. -/
theorem power_identity_witness :
    activePower [3, 4] [1, 2] * activePower [3, 4] [1, 2] ≤
      apparentPower [3, 4] [1, 2] * apparentPower [3, 4] [1, 2] ∧
    0 ≤ reactivePower [3, 4] [1, 2] ∧
    reactivePower [3, 4] [1, 2] * reactivePower [3, 4] [1, 2] =
      apparentPower [3, 4] [1, 2] * apparentPower [3, 4] [1, 2] -
        activePower [3, 4] [1, 2] * activePower [3, 4] [1, 2] :=
  power_identity [3, 4] [1, 2] rfl (by simp)

/-! ### Power factor, reactive power, total power factor -/

theorem rms_nonneg (l : List ℝ) : 0 ≤ rms l := Real.sqrt_nonneg _

theorem apparentPower_nonneg (v w : List ℝ) : 0 ≤ apparentPower v w :=
  div_nonneg (mul_nonneg (rms_nonneg v) (rms_nonneg w)) (by norm_num)

theorem pf_L1_eq (b : PowerData) :
    (computeBaselineMetrics b).power_analysis.power_factor.L1 =
      if 0 < apparentPower b.voltage_L1 b.current_L1 then
        some (min 1 (max (-1) (activePower b.voltage_L1 b.current_L1 /
          apparentPower b.voltage_L1 b.current_L1)))
      else none := rfl

theorem pf_L2_eq (b : PowerData) :
    (computeBaselineMetrics b).power_analysis.power_factor.L2 =
      if 0 < apparentPower b.voltage_L2 b.current_L2 then
        some (min 1 (max (-1) (activePower b.voltage_L2 b.current_L2 /
          apparentPower b.voltage_L2 b.current_L2)))
      else none := rfl

theorem pf_L3_eq (b : PowerData) :
    (computeBaselineMetrics b).power_analysis.power_factor.L3 =
      if 0 < apparentPower b.voltage_L3 b.current_L3 then
        some (min 1 (max (-1) (activePower b.voltage_L3 b.current_L3 /
          apparentPower b.voltage_L3 b.current_L3)))
      else none := rfl

theorem reactive_L1_eq (b : PowerData) :
    (computeBaselineMetrics b).power_analysis.reactive_power.L1 =
      match (computeBaselineMetrics b).power_analysis.power_factor.L1 with
      | some _ => some (reactivePower b.voltage_L1 b.current_L1)
      | none => none := rfl

theorem reactive_L2_eq (b : PowerData) :
    (computeBaselineMetrics b).power_analysis.reactive_power.L2 =
      match (computeBaselineMetrics b).power_analysis.power_factor.L2 with
      | some _ => some (reactivePower b.voltage_L2 b.current_L2)
      | none => none := rfl

theorem reactive_L3_eq (b : PowerData) :
    (computeBaselineMetrics b).power_analysis.reactive_power.L3 =
      match (computeBaselineMetrics b).power_analysis.power_factor.L3 with
      | some _ => some (reactivePower b.voltage_L3 b.current_L3)
      | none => none := rfl

theorem total_pf_eq (b : PowerData) :
    (computeBaselineMetrics b).power_analysis.power_factor.total =
      if 0 < apparentPower b.voltage_L1 b.current_L1 +
          apparentPower b.voltage_L2 b.current_L2 +
          apparentPower b.voltage_L3 b.current_L3 then
        some (min 1 (max 0 ((activePower b.voltage_L1 b.current_L1 +
          activePower b.voltage_L2 b.current_L2 +
          activePower b.voltage_L3 b.current_L3) /
          (apparentPower b.voltage_L1 b.current_L1 +
            apparentPower b.voltage_L2 b.current_L2 +
            apparentPower b.voltage_L3 b.current_L3))))
      else none := rfl

theorem pf_if_aux (P S : ℝ) (hS : 0 ≤ S) :
    ((if 0 < S then some (min 1 (max (-1) (P / S))) else none) = none ↔ S = 0) := by
  by_cases h : 0 < S
  · rw [if_pos h]
    constructor
    · intro hc
      exact absurd hc (by simp)
    · intro hc
      exact absurd hc (by linarith)
  · rw [if_neg h]
    simp [le_antisymm (not_lt.1 h) hS]

theorem match_opt_none_iff (x : Option ℝ) (q : ℝ) :
    (match x with | some _ => some q | none => (none : Option ℝ)) = none ↔ x = none := by
  cases x <;> simp

/-- C8: the per-phase power factor is `clamp(P/S, -1, 1)` when `S > 0`, is the
null sentinel exactly when `S = 0`, and the per-phase reactive power is null
exactly when the power factor is. -/
theorem pf_clamp_null_spec (b : PowerData) :
    ((computeBaselineMetrics b).power_analysis.power_factor.L1 = none ↔
      apparentPower b.voltage_L1 b.current_L1 = 0) ∧
    (0 < apparentPower b.voltage_L1 b.current_L1 →
      (computeBaselineMetrics b).power_analysis.power_factor.L1 =
        some (min 1 (max (-1) (activePower b.voltage_L1 b.current_L1 /
          apparentPower b.voltage_L1 b.current_L1)))) ∧
    ((computeBaselineMetrics b).power_analysis.reactive_power.L1 = none ↔
      (computeBaselineMetrics b).power_analysis.power_factor.L1 = none) ∧
    ((computeBaselineMetrics b).power_analysis.power_factor.L2 = none ↔
      apparentPower b.voltage_L2 b.current_L2 = 0) ∧
    (0 < apparentPower b.voltage_L2 b.current_L2 →
      (computeBaselineMetrics b).power_analysis.power_factor.L2 =
        some (min 1 (max (-1) (activePower b.voltage_L2 b.current_L2 /
          apparentPower b.voltage_L2 b.current_L2)))) ∧
    ((computeBaselineMetrics b).power_analysis.reactive_power.L2 = none ↔
      (computeBaselineMetrics b).power_analysis.power_factor.L2 = none) ∧
    ((computeBaselineMetrics b).power_analysis.power_factor.L3 = none ↔
      apparentPower b.voltage_L3 b.current_L3 = 0) ∧
    (0 < apparentPower b.voltage_L3 b.current_L3 →
      (computeBaselineMetrics b).power_analysis.power_factor.L3 =
        some (min 1 (max (-1) (activePower b.voltage_L3 b.current_L3 /
          apparentPower b.voltage_L3 b.current_L3)))) ∧
    ((computeBaselineMetrics b).power_analysis.reactive_power.L3 = none ↔
      (computeBaselineMetrics b).power_analysis.power_factor.L3 = none) := by
  refine ⟨?_, ?_, ?_, ?_, ?_, ?_, ?_, ?_, ?_⟩
  · rw [pf_L1_eq]
    exact pf_if_aux _ _ (apparentPower_nonneg _ _)
  · intro h
    rw [pf_L1_eq, if_pos h]
  · rw [reactive_L1_eq]
    exact match_opt_none_iff _ _
  · rw [pf_L2_eq]
    exact pf_if_aux _ _ (apparentPower_nonneg _ _)
  · intro h
    rw [pf_L2_eq, if_pos h]
  · rw [reactive_L2_eq]
    exact match_opt_none_iff _ _
  · rw [pf_L3_eq]
    exact pf_if_aux _ _ (apparentPower_nonneg _ _)
  · intro h
    rw [pf_L3_eq, if_pos h]
  · rw [reactive_L3_eq]
    exact match_opt_none_iff _ _

/-- A batch whose six channels are all `[1, -1]` (RMS 1 per channel). -/
def posBatch : PowerData :=
  ⟨[1, -1], [1, -1], [1, -1], [1, -1], [1, -1], [1, -1], 1000⟩

theorem sumSq_one_negone : sumSq ([1, -1] : List ℝ) = 2 := by
  norm_num [sumSq]

theorem rms_one_negone : rms ([1, -1] : List ℝ) = 1 := by
  rw [rms, sumSq_one_negone]
  norm_num

theorem apparentPower_one_negone :
    apparentPower ([1, -1] : List ℝ) [1, -1] = 1 / 1000 := by
  rw [apparentPower, rms_one_negone]
  norm_num

/-- Witness for C8 at `posBatch` (positive apparent power on L1). -/
theorem pf_clamp_null_spec_witness :
    0 < apparentPower ([1, -1] : List ℝ) [1, -1] ∧
    (computeBaselineMetrics posBatch).power_analysis.power_factor.L1 =
      some (min 1 (max (-1) (activePower ([1, -1] : List ℝ) [1, -1] /
        apparentPower ([1, -1] : List ℝ) [1, -1]))) := by
  have h : 0 < apparentPower ([1, -1] : List ℝ) [1, -1] := by
    rw [apparentPower_one_negone]
    norm_num
  exact ⟨h, (pf_clamp_null_spec posBatch).2.1 h⟩

/-- C10: the total power factor is clamped into `[0, 1]` (lower bound 0, not
-1) whenever the total apparent power is positive, and is the null sentinel
exactly when the total apparent power is 0; in particular it is never a
negative number. -/
theorem total_pf_spec (b : PowerData) :
    ((computeBaselineMetrics b).power_analysis.power_factor.total = none ↔
      apparentPower b.voltage_L1 b.current_L1 + apparentPower b.voltage_L2 b.current_L2 +
        apparentPower b.voltage_L3 b.current_L3 = 0) ∧
    (0 < apparentPower b.voltage_L1 b.current_L1 + apparentPower b.voltage_L2 b.current_L2 +
        apparentPower b.voltage_L3 b.current_L3 →
      (computeBaselineMetrics b).power_analysis.power_factor.total =
        some (min 1 (max 0 ((activePower b.voltage_L1 b.current_L1 +
          activePower b.voltage_L2 b.current_L2 + activePower b.voltage_L3 b.current_L3) /
          (apparentPower b.voltage_L1 b.current_L1 + apparentPower b.voltage_L2 b.current_L2 +
            apparentPower b.voltage_L3 b.current_L3))))) ∧
    (∀ x : ℝ, (computeBaselineMetrics b).power_analysis.power_factor.total = some x →
      0 ≤ x ∧ x ≤ 1) := by
  have hS : 0 ≤ apparentPower b.voltage_L1 b.current_L1 +
      apparentPower b.voltage_L2 b.current_L2 + apparentPower b.voltage_L3 b.current_L3 := by
    have h1 := apparentPower_nonneg b.voltage_L1 b.current_L1
    have h2 := apparentPower_nonneg b.voltage_L2 b.current_L2
    have h3 := apparentPower_nonneg b.voltage_L3 b.current_L3
    linarith
  refine ⟨?_, ?_, ?_⟩
  · rw [total_pf_eq]
    by_cases h : 0 < apparentPower b.voltage_L1 b.current_L1 +
        apparentPower b.voltage_L2 b.current_L2 + apparentPower b.voltage_L3 b.current_L3
    · rw [if_pos h]
      constructor
      · intro hc
        exact absurd hc (by simp)
      · intro hc
        exact absurd hc (by linarith)
    · rw [if_neg h]
      simp [le_antisymm (not_lt.1 h) hS]
  · intro h
    rw [total_pf_eq, if_pos h]
  · intro x hx
    rw [total_pf_eq] at hx
    by_cases h : 0 < apparentPower b.voltage_L1 b.current_L1 +
        apparentPower b.voltage_L2 b.current_L2 + apparentPower b.voltage_L3 b.current_L3
    · rw [if_pos h] at hx
      have hx2 : x = min 1 (max 0 ((activePower b.voltage_L1 b.current_L1 +
          activePower b.voltage_L2 b.current_L2 + activePower b.voltage_L3 b.current_L3) /
          (apparentPower b.voltage_L1 b.current_L1 + apparentPower b.voltage_L2 b.current_L2 +
            apparentPower b.voltage_L3 b.current_L3))) := by
        exact (Option.some_inj.1 hx).symm
      constructor
      · rw [hx2]
        exact le_min (by norm_num) (le_max_left 0 _)
      · rw [hx2]
        exact min_le_left _ _
    · rw [if_neg h] at hx
      exact absurd hx (by simp)

/-- Witness for C10 at `posBatch` (positive total apparent power). -/
theorem total_pf_spec_witness :
    (computeBaselineMetrics posBatch).power_analysis.power_factor.total =
      some (min 1 (max 0 ((activePower ([1, -1] : List ℝ) [1, -1] +
        activePower ([1, -1] : List ℝ) [1, -1] + activePower ([1, -1] : List ℝ) [1, -1]) /
        (apparentPower ([1, -1] : List ℝ) [1, -1] + apparentPower ([1, -1] : List ℝ) [1, -1] +
          apparentPower ([1, -1] : List ℝ) [1, -1])))) ∧
    0 ≤ min 1 (max 0 ((activePower ([1, -1] : List ℝ) [1, -1] +
      activePower ([1, -1] : List ℝ) [1, -1] + activePower ([1, -1] : List ℝ) [1, -1]) /
      (apparentPower ([1, -1] : List ℝ) [1, -1] + apparentPower ([1, -1] : List ℝ) [1, -1] +
        apparentPower ([1, -1] : List ℝ) [1, -1]))) ∧
    min 1 (max 0 ((activePower ([1, -1] : List ℝ) [1, -1] +
      activePower ([1, -1] : List ℝ) [1, -1] + activePower ([1, -1] : List ℝ) [1, -1]) /
      (apparentPower ([1, -1] : List ℝ) [1, -1] + apparentPower ([1, -1] : List ℝ) [1, -1] +
        apparentPower ([1, -1] : List ℝ) [1, -1]))) ≤ 1 := by
  have h : 0 < apparentPower ([1, -1] : List ℝ) [1, -1] +
      apparentPower ([1, -1] : List ℝ) [1, -1] + apparentPower ([1, -1] : List ℝ) [1, -1] := by
    rw [apparentPower_one_negone]
    norm_num
  have h1 := (total_pf_spec posBatch).2.1 h
  have h2 := (total_pf_spec posBatch).2.2 _ h1
  exact ⟨h1, h2.1, h2.2⟩

/-! ### Nullability of the baseline leaves -/

theorem pf_total_if_aux (P S : ℝ) (hS : 0 ≤ S) :
    ((if 0 < S then some (min 1 (max 0 (P / S))) else none) = none ↔ S = 0) := by
  by_cases h : 0 < S
  · rw [if_pos h]
    constructor
    · intro hc
      exact absurd hc (by simp)
    · intro hc
      exact absurd hc (by linarith)
  · rw [if_neg h]
    simp [le_antisymm (not_lt.1 h) hS]

theorem thd_none_iff (fs : ℝ) (f0 : Option ℝ) (arr : List ℝ) :
    thdPercent fs f0 arr = none ↔ goertzel fs (demean arr) (thdFundamental f0) = 0 := by
  simp only [thdPercent]
  by_cases h : goertzel fs (demean arr) (thdFundamental f0) = 0
  · rw [if_pos h]
    simp [h]
  · rw [if_neg h]
    simp [h]

theorem thd_voltage_L1_eq (b : PowerData) :
    (computeBaselineMetrics b).quality_metrics.thd_voltage.L1 =
      thdPercent (if b.sampling_rate_hz = 0 then 1000 else b.sampling_rate_hz)
        (freqFromZeroCross (if b.sampling_rate_hz = 0 then 1000 else b.sampling_rate_hz)
          b.voltage_L1) b.voltage_L1 := rfl

theorem thd_voltage_L2_eq (b : PowerData) :
    (computeBaselineMetrics b).quality_metrics.thd_voltage.L2 =
      thdPercent (if b.sampling_rate_hz = 0 then 1000 else b.sampling_rate_hz)
        (freqFromZeroCross (if b.sampling_rate_hz = 0 then 1000 else b.sampling_rate_hz)
          b.voltage_L1) b.voltage_L2 := rfl

theorem thd_voltage_L3_eq (b : PowerData) :
    (computeBaselineMetrics b).quality_metrics.thd_voltage.L3 =
      thdPercent (if b.sampling_rate_hz = 0 then 1000 else b.sampling_rate_hz)
        (freqFromZeroCross (if b.sampling_rate_hz = 0 then 1000 else b.sampling_rate_hz)
          b.voltage_L1) b.voltage_L3 := rfl

theorem thd_current_L1_eq (b : PowerData) :
    (computeBaselineMetrics b).quality_metrics.thd_current.L1 =
      thdPercent (if b.sampling_rate_hz = 0 then 1000 else b.sampling_rate_hz)
        (freqFromZeroCross (if b.sampling_rate_hz = 0 then 1000 else b.sampling_rate_hz)
          b.voltage_L1) b.current_L1 := rfl

theorem thd_current_L2_eq (b : PowerData) :
    (computeBaselineMetrics b).quality_metrics.thd_current.L2 =
      thdPercent (if b.sampling_rate_hz = 0 then 1000 else b.sampling_rate_hz)
        (freqFromZeroCross (if b.sampling_rate_hz = 0 then 1000 else b.sampling_rate_hz)
          b.voltage_L1) b.current_L2 := rfl

theorem thd_current_L3_eq (b : PowerData) :
    (computeBaselineMetrics b).quality_metrics.thd_current.L3 =
      thdPercent (if b.sampling_rate_hz = 0 then 1000 else b.sampling_rate_hz)
        (freqFromZeroCross (if b.sampling_rate_hz = 0 then 1000 else b.sampling_rate_hz)
          b.voltage_L1) b.current_L3 := rfl

/-- A valid batch (invariant holds) whose currents are identically zero. -/
def zeroCurrentBatch : PowerData :=
  ⟨[1, -1], [1, -1], [1, -1], [0, 0], [0, 0], [0, 0], 1000⟩

theorem rms_zero_zero : rms ([0, 0] : List ℝ) = 0 := by
  rw [rms]
  norm_num [sumSq]

/-- C2 counterexample: `zeroCurrentBatch` satisfies the WaveformBatch
invariant, yet the baseline's L1 power-factor leaf is null. -/
theorem baseline_pf_null_cex :
    batchInvariant zeroCurrentBatch ∧
    (computeBaselineMetrics zeroCurrentBatch).power_analysis.power_factor.L1 = none := by
  constructor
  · exact ⟨by simp [zeroCurrentBatch], rfl, rfl, rfl, rfl, rfl, by norm_num [zeroCurrentBatch]⟩
  · have hS0 : apparentPower ([1, -1] : List ℝ) [0, 0] = 0 := by
      rw [apparentPower, rms_zero_zero]
      norm_num
    have hvol : zeroCurrentBatch.voltage_L1 = ([1, -1] : List ℝ) := rfl
    have hcur : zeroCurrentBatch.current_L1 = ([0, 0] : List ℝ) := rfl
    rw [pf_L1_eq, hvol, hcur, hS0]
    simp

/-- C2 (amended): the power-factor and reactive-power leaves are null exactly
when the corresponding apparent power is zero, the total power factor exactly
when the total apparent power is zero, and the THD leaves exactly when the
fundamental Goertzel magnitude of the demeaned channel is zero; every other
leaf of the baseline is a plain number (or string) by construction. -/
theorem baseline_leaf_nullability (b : PowerData) (h : batchInvariant b) :
    ((computeBaselineMetrics b).power_analysis.power_factor.L1 = none ↔
      apparentPower b.voltage_L1 b.current_L1 = 0) ∧
    ((computeBaselineMetrics b).power_analysis.reactive_power.L1 = none ↔
      apparentPower b.voltage_L1 b.current_L1 = 0) ∧
    ((computeBaselineMetrics b).power_analysis.power_factor.L2 = none ↔
      apparentPower b.voltage_L2 b.current_L2 = 0) ∧
    ((computeBaselineMetrics b).power_analysis.reactive_power.L2 = none ↔
      apparentPower b.voltage_L2 b.current_L2 = 0) ∧
    ((computeBaselineMetrics b).power_analysis.power_factor.L3 = none ↔
      apparentPower b.voltage_L3 b.current_L3 = 0) ∧
    ((computeBaselineMetrics b).power_analysis.reactive_power.L3 = none ↔
      apparentPower b.voltage_L3 b.current_L3 = 0) ∧
    ((computeBaselineMetrics b).power_analysis.power_factor.total = none ↔
      apparentPower b.voltage_L1 b.current_L1 + apparentPower b.voltage_L2 b.current_L2 +
        apparentPower b.voltage_L3 b.current_L3 = 0) ∧
    ((computeBaselineMetrics b).quality_metrics.thd_voltage.L1 = none ↔
      goertzel b.sampling_rate_hz (demean b.voltage_L1)
        (thdFundamental (freqFromZeroCross b.sampling_rate_hz b.voltage_L1)) = 0) ∧
    ((computeBaselineMetrics b).quality_metrics.thd_voltage.L2 = none ↔
      goertzel b.sampling_rate_hz (demean b.voltage_L2)
        (thdFundamental (freqFromZeroCross b.sampling_rate_hz b.voltage_L1)) = 0) ∧
    ((computeBaselineMetrics b).quality_metrics.thd_voltage.L3 = none ↔
      goertzel b.sampling_rate_hz (demean b.voltage_L3)
        (thdFundamental (freqFromZeroCross b.sampling_rate_hz b.voltage_L1)) = 0) ∧
    ((computeBaselineMetrics b).quality_metrics.thd_current.L1 = none ↔
      goertzel b.sampling_rate_hz (demean b.current_L1)
        (thdFundamental (freqFromZeroCross b.sampling_rate_hz b.voltage_L1)) = 0) ∧
    ((computeBaselineMetrics b).quality_metrics.thd_current.L2 = none ↔
      goertzel b.sampling_rate_hz (demean b.current_L2)
        (thdFundamental (freqFromZeroCross b.sampling_rate_hz b.voltage_L1)) = 0) ∧
    ((computeBaselineMetrics b).quality_metrics.thd_current.L3 = none ↔
      goertzel b.sampling_rate_hz (demean b.current_L3)
        (thdFundamental (freqFromZeroCross b.sampling_rate_hz b.voltage_L1)) = 0) := by
  have hfs : (if b.sampling_rate_hz = 0 then 1000 else b.sampling_rate_hz) =
      b.sampling_rate_hz := if_neg (ne_of_gt h.2.2.2.2.2.2)
  have hqpf : ∀ v w : List ℝ,
      (match (if 0 < apparentPower v w then
          some (min 1 (max (-1) (activePower v w / apparentPower v w))) else none : Option ℝ) with
        | some _ => some (reactivePower v w)
        | none => (none : Option ℝ)) = none ↔ apparentPower v w = 0 := by
    intro v w
    rw [match_opt_none_iff]
    exact pf_if_aux _ _ (apparentPower_nonneg _ _)
  refine ⟨?_, ?_, ?_, ?_, ?_, ?_, ?_, ?_, ?_, ?_, ?_, ?_, ?_⟩
  · rw [pf_L1_eq]
    exact pf_if_aux _ _ (apparentPower_nonneg _ _)
  · rw [reactive_L1_eq, pf_L1_eq]
    exact hqpf _ _
  · rw [pf_L2_eq]
    exact pf_if_aux _ _ (apparentPower_nonneg _ _)
  · rw [reactive_L2_eq, pf_L2_eq]
    exact hqpf _ _
  · rw [pf_L3_eq]
    exact pf_if_aux _ _ (apparentPower_nonneg _ _)
  · rw [reactive_L3_eq, pf_L3_eq]
    exact hqpf _ _
  · rw [total_pf_eq]
    exact pf_total_if_aux _ _ (by
      have h1 := apparentPower_nonneg b.voltage_L1 b.current_L1
      have h2 := apparentPower_nonneg b.voltage_L2 b.current_L2
      have h3 := apparentPower_nonneg b.voltage_L3 b.current_L3
      linarith)
  · rw [thd_voltage_L1_eq, hfs]
    exact thd_none_iff _ _ _
  · rw [thd_voltage_L2_eq, hfs]
    exact thd_none_iff _ _ _
  · rw [thd_voltage_L3_eq, hfs]
    exact thd_none_iff _ _ _
  · rw [thd_current_L1_eq, hfs]
    exact thd_none_iff _ _ _
  · rw [thd_current_L2_eq, hfs]
    exact thd_none_iff _ _ _
  · rw [thd_current_L3_eq, hfs]
    exact thd_none_iff _ _ _

/-- Witness for C2's amended statement: `posBatch` satisfies the invariant. -/
theorem baseline_leaf_nullability_witness :
    (computeBaselineMetrics posBatch).power_analysis.power_factor.L1 = none ↔
      apparentPower ([1, -1] : List ℝ) [1, -1] = 0 :=
  (baseline_leaf_nullability posBatch
    ⟨by simp [posBatch], rfl, rfl, rfl, rfl, rfl, by norm_num [posBatch]⟩).1

/-! ### Correlation of constant channels -/

theorem demean_replicate {K : Type} [LinearOrderedField K] (n : ℕ) (c : K) :
    demean (List.replicate n c) = List.replicate n 0 := by
  cases n with
  | zero => rfl
  | succ m =>
    have hc : ((m + 1 : ℕ) : K) ≠ 0 := Nat.cast_ne_zero.2 (Nat.succ_ne_zero m)
    have hmean : mean (List.replicate (m + 1) c) = c := by
      rw [mean, List.sum_replicate, List.length_replicate, nsmul_eq_mul]
      field_simp
    rw [demean, hmean, List.map_replicate]
    simp

theorem sumSq_replicate_zero (n : ℕ) : sumSq (List.replicate n (0 : ℝ)) = 0 := by
  simp [sumSq, List.map_replicate, List.sum_replicate]

theorem getD_replicate_zero (n i : ℕ) : (List.replicate n (0 : ℝ)).getD i 0 = 0 := by
  induction n generalizing i with
  | zero => simp [List.getD]
  | succ m ih =>
    cases i with
    | zero => simp [List.replicate_succ]
    | succ j => simp [List.replicate_succ, ih j]

theorem crossSum_replicate_zero (n m : ℕ) (lag : ℤ) :
    crossSum (List.replicate n (0 : ℝ)) (List.replicate m (0 : ℝ)) lag = 0 := by
  rw [crossSum]
  apply Finset.sum_eq_zero
  intro i _
  split
  · rw [getD_replicate_zero, zero_mul]
  · rfl

theorem foldl_corrStep_nan (ax bx : List ℝ) (denom : ℝ)
    (h : ∀ lag : ℤ, jsDiv (crossSum ax bx lag) denom = JR.nan) :
    ∀ (L : List ℤ) (init : ℤ × JR), L.foldl (corrStep ax bx denom) init = init := by
  intro L
  induction L with
  | nil => intro init; rfl
  | cons a L ih =>
    intro init
    rw [List.foldl_cons]
    have hgt : ∀ y, jsGt JR.nan y = false := fun y => by cases y <;> rfl
    have hstep : corrStep ax bx denom init a = init := by
      simp only [corrStep, h a]
      rw [hgt init.2]
      simp
    rw [hstep, ih]

theorem phi_L1_eq (b : PowerData) :
    (computeBaselineMetrics b).phase_angles_degrees.voltage_L1_vs_current_L1 =
      normDeg (lagToDeg
        (samplesPerPeriodOf (if b.sampling_rate_hz = 0 then 1000 else b.sampling_rate_hz)
          (freqFromZeroCross (if b.sampling_rate_hz = 0 then 1000 else b.sampling_rate_hz)
            b.voltage_L1))
        (correlationLag b.voltage_L1 b.current_L1
          (jsRound (samplesPerPeriodOf
            (if b.sampling_rate_hz = 0 then 1000 else b.sampling_rate_hz)
            (freqFromZeroCross (if b.sampling_rate_hz = 0 then 1000 else b.sampling_rate_hz)
              b.voltage_L1))))) := rfl

theorem normDeg_zero : normDeg (0 : ℝ) = 0 := by
  have h1 : jsMod (180 : ℝ) 360 = 180 := by
    rw [jsMod_eq_sub, show (180 : ℝ) / 360 = 1 / 2 by norm_num, jsTrunc,
      if_pos (by norm_num : (0 : ℝ) ≤ 1 / 2),
      show ⌊(1 / 2 : ℝ)⌋ = 0 by rw [Int.floor_eq_iff]; norm_num]
    norm_num
  have h2 : jsMod (540 : ℝ) 360 = 180 := by
    rw [jsMod_eq_sub, show (540 : ℝ) / 360 = 3 / 2 by norm_num, jsTrunc,
      if_pos (by norm_num : (0 : ℝ) ≤ 3 / 2),
      show ⌊(3 / 2 : ℝ)⌋ = 1 by rw [Int.floor_eq_iff]; norm_num]
    norm_num
  show jsMod (jsMod ((0 : ℝ) + 180) 360 + 360) 360 - 180 = 0
  rw [show (0 : ℝ) + 180 = 180 by norm_num, h1,
    show (180 : ℝ) + 360 = 540 by norm_num, h2]
  norm_num

/-- C9: when both channels are constant, every normalized correlation
coefficient is NaN (0/0), the best-lag update never fires so the lag stays 0,
and the reported L1 voltage-current phase angle is 0 degrees, not NaN. -/
theorem correlationLag_const (b : PowerData) (c d : ℝ) (n m : ℕ) (maxLag : ℤ)
    (hv : b.voltage_L1 = List.replicate n c) (hi : b.current_L1 = List.replicate m d) :
    (∀ lag ∈ lagRange maxLag,
      jsDiv (crossSum (demean (List.replicate n c)) (demean (List.replicate m d)) lag)
        (Real.sqrt (sumSq (demean (List.replicate n c)) *
          sumSq (demean (List.replicate m d)))) = JR.nan) ∧
    correlationLag (List.replicate n c) (List.replicate m d) maxLag = 0 ∧
    (computeBaselineMetrics b).phase_angles_degrees.voltage_L1_vs_current_L1 = 0 := by
  have hda : demean (List.replicate n c) = List.replicate n 0 := demean_replicate n c
  have hdb : demean (List.replicate m d) = List.replicate m 0 := demean_replicate m d
  have hdenom : Real.sqrt (sumSq (demean (List.replicate n c)) *
      sumSq (demean (List.replicate m d))) = 0 := by
    rw [hda, hdb, sumSq_replicate_zero, sumSq_replicate_zero]
    norm_num
  have hnan : ∀ lag : ℤ,
      jsDiv (crossSum (demean (List.replicate n c)) (demean (List.replicate m d)) lag)
        (Real.sqrt (sumSq (demean (List.replicate n c)) *
          sumSq (demean (List.replicate m d)))) = JR.nan := by
    intro lag
    rw [hdenom, hda, hdb, crossSum_replicate_zero]
    simp [jsDiv]
  have hlag : ∀ k : ℤ, correlationLag (List.replicate n c) (List.replicate m d) k = 0 := by
    intro k
    simp only [correlationLag]
    rw [foldl_corrStep_nan _ _ _ hnan]
  refine ⟨fun lag _ => hnan lag, hlag maxLag, ?_⟩
  rw [phi_L1_eq, hv, hi, hlag]
  have hl0 : lagToDeg
      (samplesPerPeriodOf (if b.sampling_rate_hz = 0 then 1000 else b.sampling_rate_hz)
        (freqFromZeroCross (if b.sampling_rate_hz = 0 then 1000 else b.sampling_rate_hz)
          (List.replicate n c))) 0 = 0 := by
    simp [lagToDeg]
  rw [hl0, normDeg_zero]

/-- A batch whose voltages are constant 5 and currents constant 3. -/
def constBatch : PowerData :=
  ⟨List.replicate 2 5, List.replicate 2 5, List.replicate 2 5,
   List.replicate 2 3, List.replicate 2 3, List.replicate 2 3, 1000⟩

/-- Witness for C9 at `constBatch`. -/
theorem correlationLag_const_witness :
    correlationLag (List.replicate 2 (5 : ℝ)) (List.replicate 2 (3 : ℝ)) 1 = 0 ∧
    (computeBaselineMetrics constBatch).phase_angles_degrees.voltage_L1_vs_current_L1 = 0 :=
  ⟨(correlationLag_const constBatch 5 3 2 2 1 rfl rfl).2.1,
   (correlationLag_const constBatch 5 3 2 2 1 rfl rfl).2.2⟩

/-! ### No exceptions: every edge case resolves to a sentinel -/

theorem freq_eq (b : PowerData) :
    (computeBaselineMetrics b).frequency_hz =
      freqFromZeroCross (if b.sampling_rate_hz = 0 then 1000 else b.sampling_rate_hz)
        b.voltage_L1 := rfl

theorem sumSq_eq_zero_getD (l : List ℝ) (h : sumSq l = 0) : ∀ i : ℕ, l.getD i 0 = 0 := by
  intro i
  rcases lt_or_ge i l.length with hi | hi
  · have hsum : ∑ k in Finset.range l.length, l.getD k 0 * l.getD k 0 = 0 := by
      rw [← map_sum_getD (fun x => x * x) l]
      exact h
    have hterm := (Finset.sum_eq_zero_iff_of_nonneg
      (fun k _ => mul_self_nonneg (l.getD k 0))).1 hsum i (Finset.mem_range.2 hi)
    exact mul_self_eq_zero.1 hterm
  · exact List.getD_eq_default _ _ hi

theorem crossSum_eq_zero_of (ax bx : List ℝ) (lag : ℤ)
    (h : sumSq ax = 0 ∨ sumSq bx = 0) : crossSum ax bx lag = 0 := by
  rw [crossSum]
  apply Finset.sum_eq_zero
  intro i _
  split
  · rcases h with h | h
    · rw [sumSq_eq_zero_getD ax h, zero_mul]
    · rw [sumSq_eq_zero_getD bx h, mul_zero]
  · rfl

/-- Zero correlation denominator: every coefficient is NaN `0/0`, so the
best-lag update never fires and the lag sentinel is 0. -/
theorem correlationLag_denom_zero (a bb : List ℝ) (k : ℤ)
    (h : Real.sqrt (sumSq (demean a) * sumSq (demean bb)) = 0) :
    correlationLag a bb k = 0 := by
  have hprod : sumSq (demean a) * sumSq (demean bb) = 0 := by
    have h1 : sumSq (demean a) * sumSq (demean bb) ≤ 0 := Real.sqrt_eq_zero'.1 h
    have h2 : 0 ≤ sumSq (demean a) * sumSq (demean bb) :=
      mul_nonneg (sumSq_nonneg _) (sumSq_nonneg _)
    linarith
  have hor : sumSq (demean a) = 0 ∨ sumSq (demean bb) = 0 := mul_eq_zero.1 hprod
  have hnan : ∀ lag : ℤ,
      jsDiv (crossSum (demean a) (demean bb) lag)
        (Real.sqrt (sumSq (demean a) * sumSq (demean bb))) = JR.nan := by
    intro lag
    rw [h, crossSum_eq_zero_of _ _ _ hor]
    simp [jsDiv]
  simp only [correlationLag]
  rw [foldl_corrStep_nan _ _ _ hnan]

/-- C4: under the WaveformBatch invariant the (total, exception-free) core
resolves each numeric edge case to its sentinel: fewer than 2 zero crossings
gives the NaN frequency, a NaN frequency gives the 50 Hz period default, zero
apparent power gives null power factor and reactive power, a zero correlation
denominator gives lag 0, and a zero fundamental magnitude gives null THD. -/
theorem core_sentinels (b : PowerData) (h : batchInvariant b) :
    ((crossings (demean b.voltage_L1)).length < 2 →
      (computeBaselineMetrics b).frequency_hz = none) ∧
    ((computeBaselineMetrics b).frequency_hz = none →
      samplesPerPeriodOf b.sampling_rate_hz ((computeBaselineMetrics b).frequency_hz) =
        b.sampling_rate_hz / 50) ∧
    (apparentPower b.voltage_L1 b.current_L1 = 0 →
      (computeBaselineMetrics b).power_analysis.power_factor.L1 = none ∧
      (computeBaselineMetrics b).power_analysis.reactive_power.L1 = none) ∧
    (∀ k : ℤ, Real.sqrt (sumSq (demean b.voltage_L1) * sumSq (demean b.current_L1)) = 0 →
      correlationLag b.voltage_L1 b.current_L1 k = 0) ∧
    (goertzel b.sampling_rate_hz (demean b.voltage_L1)
        (thdFundamental (freqFromZeroCross b.sampling_rate_hz b.voltage_L1)) = 0 →
      (computeBaselineMetrics b).quality_metrics.thd_voltage.L1 = none) := by
  have hfs : (if b.sampling_rate_hz = 0 then 1000 else b.sampling_rate_hz) =
      b.sampling_rate_hz := if_neg (ne_of_gt h.2.2.2.2.2.2)
  refine ⟨?_, ?_, ?_, ?_, ?_⟩
  · intro hc
    rw [freq_eq, hfs]
    exact (freqFromZeroCross_spec b.sampling_rate_hz b.voltage_L1).2.2.1 hc
  · intro hf
    rw [hf]
    rfl
  · intro hS
    constructor
    · rw [pf_L1_eq, hS]
      simp
    · rw [reactive_L1_eq, pf_L1_eq, hS]
      simp
  · intro k hd
    exact correlationLag_denom_zero _ _ k hd
  · intro hg
    rw [thd_voltage_L1_eq, hfs]
    exact (thd_none_iff _ _ _).2 hg

/-- Witness for C4 at `posBatch` (whose L1 voltage has no positive-going
zero crossing, so the frequency sentinel fires). -/
theorem core_sentinels_witness :
    (computeBaselineMetrics posBatch).frequency_hz = none ∧
    samplesPerPeriodOf (1000 : ℝ) ((computeBaselineMetrics posBatch).frequency_hz) =
      1000 / 50 := by
  have hinv : batchInvariant posBatch :=
    ⟨by simp [posBatch], rfl, rfl, rfl, rfl, rfl, by norm_num [posBatch]⟩
  have hcross : crossings (demean ([1, -1] : List ℝ)) = [] := by
    norm_num [crossings, demean, mean, List.range', List.filter]
  have hc : (crossings (demean posBatch.voltage_L1)).length < 2 := by
    rw [show posBatch.voltage_L1 = ([1, -1] : List ℝ) from rfl, hcross]
    norm_num
  have hf := (core_sentinels posBatch hinv).1 hc
  exact ⟨hf, (core_sentinels posBatch hinv).2.1 hf⟩

/-! ### The merge step -/

/-- A concrete baseline object with every leaf populated. -/
def sampleMetrics : BaselineMetrics :=
  { rms_values := ⟨⟨230, 231, 232⟩, ⟨10, 11, 12⟩, ⟨400, 401, 402⟩⟩
    peak_values := ⟨325, 326, 327, 14, 15, 16⟩
    frequency_hz := some 50
    phase_angles_degrees := ⟨30, 31, 32, 120, 121, 122⟩
    power_analysis :=
      { active_power := ⟨2, 2, 2, 6⟩
        reactive_power := ⟨some 1, some 1, some 1, 3⟩
        apparent_power := ⟨3, 3, 3, 9⟩
        power_factor := ⟨some 1, some 1, some 1, some 1⟩ }
    quality_metrics := ⟨1, 2, ⟨some 3, some 4, some 5⟩, ⟨some 6, some 7, some 8⟩⟩
    phase_sequence := "positive" }

/-- C3 counterexample: merging the external value `null` over a concrete
baseline does not return the baseline — the unguarded read
`ai.frequency_hz` throws a TypeError. -/
theorem merge_null_throws :
    mergeAnalysis JVal.null (toJVal sampleMetrics) =
      .error "TypeError: cannot read properties of null, key frequency_hz" := rfl

theorem except_ok_bind {E A B : Type} (a : A) (f : A → Except E B) :
    (Except.ok a : Except E A) >>= f = f a := rfl

theorem jsonRT_obj (fs : List (String × JVal)) :
    jsonRT (.obj fs) = .obj (jsonRTF fs) := rfl

theorem jsonRTF_nil : jsonRTF [] = [] := rfl

theorem jsonRTF_cons_obj (k : String) (fs rest : List (String × JVal)) :
    jsonRTF ((k, .obj fs) :: rest) = (k, .obj (jsonRTF fs)) :: jsonRTF rest := rfl

theorem jsonRTF_cons_num (k : String) (r : ℝ) (rest : List (String × JVal)) :
    jsonRTF ((k, .num r) :: rest) = (k, .num r) :: jsonRTF rest := rfl

theorem jsonRTF_cons_str (k s : String) (rest : List (String × JVal)) :
    jsonRTF ((k, .str s) :: rest) = (k, .str s) :: jsonRTF rest := rfl

theorem jsonRTF_cons_null (k : String) (rest : List (String × JVal)) :
    jsonRTF ((k, .null) :: rest) = (k, .null) :: jsonRTF rest := rfl

theorem jsonRTF_cons_jnum (k : String) (x : Option ℝ) (rest : List (String × JVal)) :
    jsonRTF ((k, jnum x) :: rest) = (k, jnum x) :: jsonRTF rest := by
  cases x <;> rfl

/-- C3 (amended, part 1): merging the empty object returns the baseline
untouched, provided the baseline's frequency estimate is a number (a NaN
frequency would be turned into `null` by the deep-copy JSON round trip and
then overwritten with `undefined`). -/
theorem merge_empty_returns_baseline (m : BaselineMetrics) (r : ℝ)
    (hf : m.frequency_hz = some r) :
    mergeAnalysis (JVal.obj []) (toJVal m) = .ok (toJVal m) := by
  simp [mergeAnalysis, toJVal, hf, jfreq, jsonRT_obj, jsonRTF_nil, jsonRTF_cons_obj,
    jsonRTF_cons_num, jsonRTF_cons_str, jsonRTF_cons_null, jsonRTF_cons_jnum,
    jsAssign, assignF, optGet, JVal.get, JVal.getE, getF, List.find?, truthy,
    setIfMissingOrNullAux, isMissing, setTop, Except.map, except_ok_bind]

/-- Witness for C3's amended statement at `sampleMetrics`. -/
theorem merge_empty_returns_baseline_witness :
    mergeAnalysis (JVal.obj []) (toJVal sampleMetrics) = .ok (toJVal sampleMetrics) :=
  merge_empty_returns_baseline sampleMetrics 50 rfl

/-- An external analysis matching the baseline shape whose only invalid leaf
is `rms_values.voltage.L1 = null`; every other leaf is a valid number or
string. -/
def extOneNull : JVal :=
  .obj
    [("rms_values", .obj
        [("voltage", .obj
            [("L1", .null), ("L2", .num 229), ("L3", .num 228), ("units", .str "V")]),
         ("current", .obj
            [("L1", .num 9), ("L2", .num 8), ("L3", .num 7), ("units", .str "A")]),
         ("line_to_line_voltage", .obj
            [("L12", .num 398), ("L23", .num 397), ("L31", .num 396), ("units", .str "V")])]),
     ("peak_values", .obj
        [("voltage_L1", .num 324), ("voltage_L2", .num 323), ("voltage_L3", .num 322),
         ("current_L1", .num 13), ("current_L2", .num 12), ("current_L3", .num 11)]),
     ("frequency_hz", .num 60),
     ("phase_sequence", .str "positive"),
     ("phase_angles_degrees", .obj
        [("voltage_L1_vs_current_L1", .num 29), ("voltage_L2_vs_current_L2", .num 28),
         ("voltage_L3_vs_current_L3", .num 27), ("voltage_L1_vs_voltage_L2", .num 119),
         ("voltage_L2_vs_voltage_L3", .num 118), ("voltage_L3_vs_voltage_L1", .num 117)]),
     ("power_analysis", .obj
        [("active_power", .obj
            [("L1", .num 21), ("L2", .num 22), ("L3", .num 23), ("total", .num 66),
             ("units", .str "kW")]),
         ("reactive_power", .obj
            [("L1", .num 11), ("L2", .num 12), ("L3", .num 13), ("total", .num 36),
             ("units", .str "kVAR")]),
         ("apparent_power", .obj
            [("L1", .num 31), ("L2", .num 32), ("L3", .num 33), ("total", .num 96),
             ("units", .str "kVA")]),
         ("power_factor", .obj
            [("L1", .num 1), ("L2", .num 1), ("L3", .num 1), ("total", .num 1)])]),
     ("quality_metrics", .obj
        [("voltage_unbalance_percent", .num 3), ("current_unbalance_percent", .num 4),
         ("thd_voltage", .obj
            [("L1", .num 2), ("L2", .num 2), ("L3", .num 2), ("units", .str "%")]),
         ("thd_current", .obj
            [("L1", .num 5), ("L2", .num 5), ("L3", .num 5), ("units", .str "%")])])]

set_option maxRecDepth 100000 in
set_option maxHeartbeats 1000000 in
/-- C1 (code bug): for an external analysis with exactly one null leaf
(`rms_values.voltage.L1`), the merge leaves that leaf `null` instead of
falling back to the baseline value 230: the `setIfMissingOrNull` repair pass
is handed the external leaf itself as the replacement value, and the shallow
`Object.assign` has already discarded the baseline subtree. -/
theorem merge_one_null_leaf_not_repaired :
    (mergeAnalysis extOneNull (toJVal sampleMetrics)).map
        (fun res => ((res.get "rms_values").get "voltage").get "L1") = .ok .null ∧
    (((toJVal sampleMetrics).get "rms_values").get "voltage").get "L1" = .num 230 :=
  ⟨rfl, rfl⟩

end PowerLab
